import Mathlib

/-!
Verification of the Flask-AppBuilder RBAC data model
(`flask_appbuilder/security/sqla/models.py`).

The SQLAlchemy declarations are shallowly embedded: each mapped class
becomes a structure, each table a list of rows in a `Store`, the
association tables become lists of association rows, and the declared
column defaults / cascade rules become explicit state-passing functions.
-/

namespace FAB

/-- `Permission`: table `ab_permission`, surrogate `id`, `name` unique
not-null (`String(100), unique=True, nullable=False`). -/
structure Permission where
  id : Nat
  name : String
deriving DecidableEq, Repr

/-- `ViewMenu`: table `ab_view_menu`, surrogate `id`, `name` unique
not-null (`String(250), unique=True, nullable=False`). -/
structure ViewMenu where
  id : Nat
  name : String
deriving DecidableEq, Repr

/-- `ViewMenu.__eq__(self, other)`: for two `ViewMenu` instances the
`isinstance(other, self.__class__)` test is true, so equality reduces to
`self.name == other.name`. -/
def viewMenuEq (self other : ViewMenu) : Bool :=
  self.name == other.name

/-- `PermissionView`: table `ab_permission_view`, surrogate `id`,
foreign keys `permission_id` and `view_menu_id`, unique on the pair. -/
structure PermissionView where
  id : Nat
  permission_id : Nat
  view_menu_id : Nat
deriving DecidableEq, Repr

/-- `Role`: table `ab_role`, surrogate `id`, `name` unique not-null. -/
structure Role where
  id : Nat
  name : String
deriving DecidableEq, Repr

/-- `User`: table `ab_user`.  `active = Column(Boolean)` carries no
`nullable=False`, so the column is nullable and is embedded as
`Option Bool`; the audit columns `created_by_fk` / `changed_by_fk` are
declared `nullable=True` and are embedded as `Option Nat`. -/
structure User where
  id : Nat
  first_name : String
  last_name : String
  username : String
  password : Option String
  active : Option Bool
  email : String
  created_by_fk : Option Nat
  changed_by_fk : Option Nat
deriving DecidableEq, Repr

/-- `User.is_active` property: `return self.active`, the stored column
value verbatim, with no coercion. -/
def User.is_active (u : User) : Option Bool :=
  u.active

/-- `Group`: table `ab_group`, surrogate `id`, `name` unique not-null,
optional `label` and `description`. -/
structure Group where
  id : Nat
  name : String
  label : Option String
  description : Option String
deriving DecidableEq, Repr

/-- Row of association table `ab_permission_view_role`: own `id`,
`permission_view_id` and `role_id` foreign keys (both
`ondelete="CASCADE"`), unique on the pair. -/
structure AssocPermissionViewRole where
  id : Nat
  permission_view_id : Nat
  role_id : Nat
deriving DecidableEq, Repr

/-- Row of association table `ab_user_role`: own `id`, `user_id` and
`role_id` foreign keys (both `ondelete="CASCADE"`), unique on the pair. -/
structure AssocUserRole where
  id : Nat
  user_id : Nat
  role_id : Nat
deriving DecidableEq, Repr

/-- Row of association table `ab_user_group`: own `id`, `user_id` and
`group_id` foreign keys (both `ondelete="CASCADE"`), unique on the pair. -/
structure AssocUserGroup where
  id : Nat
  user_id : Nat
  group_id : Nat
deriving DecidableEq, Repr

/-- Row of association table `ab_group_role`: own `id`, `group_id` and
`role_id` foreign keys (both `ondelete="CASCADE"`), unique on the pair. -/
structure AssocGroupRole where
  id : Nat
  group_id : Nat
  role_id : Nat
deriving DecidableEq, Repr

/-- The relational store: one list of rows per declared table. -/
structure Store where
  permissions : List Permission
  view_menus : List ViewMenu
  permission_views : List PermissionView
  roles : List Role
  users : List User
  groups : List Group
  assoc_permissionview_role : List AssocPermissionViewRole
  assoc_user_role : List AssocUserRole
  assoc_user_group : List AssocUserGroup
  assoc_group_role : List AssocGroupRole
deriving Repr

end FAB

/-! ## Python `str.replace` and `PermissionView.__repr__` -/

namespace FAB

/-- Python `str.replace(pat, repl)` on character lists: scan left to
right, replacing each non-overlapping occurrence of the (non-empty)
pattern.  `PermissionView.__repr__` calls it with the one-character
pattern `"_"`. -/
def pyReplace (pat repl : List Char) : List Char → List Char
  | [] => []
  | c :: rest =>
    if pat ≠ [] ∧ pat.isPrefixOf (c :: rest) then
      repl ++ pyReplace pat repl (rest.drop (pat.length - 1))
    else
      c :: pyReplace pat repl rest
termination_by l => l.length
decreasing_by
  · simp only [List.length_cons, List.length_drop]
    omega
  · simp only [List.length_cons]
    omega

/-- `PermissionView.__repr__`:
`str(self.permission).replace("_", " ") + " on " + str(self.view_menu)`,
where `str` of a `Permission` / `ViewMenu` is its `name`
(their `__repr__` methods return `self.name`). -/
def permissionViewRepr (p : Permission) (v : ViewMenu) : List Char :=
  pyReplace ['_'] [' '] p.name.toList ++ " on ".toList ++ v.name.toList

end FAB

/-! ## Relationship accessors

Each `relationship(..., secondary=<assoc table>)` declaration is read as
a join through the association table, yielding the ids of the related
rows. -/

namespace FAB

/-- `User.roles` (secondary `ab_user_role`): ids of the Roles directly
assigned to the user. -/
def userRoleIds (s : Store) (uid : Nat) : List Nat :=
  (s.assoc_user_role.filter (fun a => a.user_id == uid)).map (·.role_id)

/-- `User.groups` (backref of `Group.users`, secondary `ab_user_group`):
ids of the Groups the user belongs to. -/
def userGroupIds (s : Store) (uid : Nat) : List Nat :=
  (s.assoc_user_group.filter (fun a => a.user_id == uid)).map (·.group_id)

/-- `Group.roles` (secondary `ab_group_role`): ids of the Roles of a
group. -/
def groupRoleIds (s : Store) (gid : Nat) : List Nat :=
  (s.assoc_group_role.filter (fun a => a.group_id == gid)).map (·.role_id)

/-- `Role.permissions` (secondary `ab_permission_view_role`): ids of the
PermissionViews granted to a role. -/
def rolePermissionViewIds (s : Store) (rid : Nat) : List Nat :=
  (s.assoc_permissionview_role.filter (fun a => a.role_id == rid)).map
    (·.permission_view_id)

/-- Modelled from the spec: `effective_permission_views(user)` is not in
this source file (it lives in the framework's security manager; only the
relationships it traverses are declared here).  Per the spec it is the
union over `user.roles` of the role's PermissionViews together with the
union, over each group in `user.groups` and each role of that group, of
the role's PermissionViews — duplicates collapsed by PermissionView
identity. -/
def effectivePermissionViews (s : Store) (uid : Nat) : List Nat :=
  ((userRoleIds s uid).flatMap (rolePermissionViewIds s) ++
    (userGroupIds s uid).flatMap (fun gid =>
      (groupRoleIds s gid).flatMap (rolePermissionViewIds s))).dedup

/-- Lookup of a `Permission` row by exact (case-sensitive) name. -/
def findPermissionByName (s : Store) (pname : String) : Option Permission :=
  s.permissions.find? (fun p => p.name == pname)

/-- Lookup of a `ViewMenu` row by exact (case-sensitive) name. -/
def findViewMenuByName (s : Store) (vname : String) : Option ViewMenu :=
  s.view_menus.find? (fun v => v.name == vname)

/-- Lookup of a `PermissionView` row by its foreign-key pair. -/
def findPermissionViewByIds (s : Store) (pid vid : Nat) : Option PermissionView :=
  s.permission_views.find? (fun pv =>
    pv.permission_id == pid && pv.view_menu_id == vid)

/-- Modelled from the spec: `has_permission(user, permission_name,
view_menu_name)` is not in this source file (only the data model it
queries is).  Per the spec it resolves the named Permission and
ViewMenu, then checks membership of the matching PermissionView in the
user's effective set, returning `false` — not an error — when the named
Permission or ViewMenu does not exist. -/
def has_permission (s : Store) (uid : Nat) (pname vname : String) : Bool :=
  match findPermissionByName s pname, findViewMenuByName s vname with
  | some p, some v =>
    match findPermissionViewByIds s p.id v.id with
    | some pv => (effectivePermissionViews s uid).contains pv.id
    | none => false
  | _, _ => false

end FAB

/-! ## Ambient actor resolution and audit columns -/

namespace FAB

/-- A principal object reachable as `g.user`; `idAttr = none` models an
object on which the `.id` attribute access raises (e.g. an anonymous
principal with no `id`). -/
structure GUser where
  idAttr : Option Nat
deriving DecidableEq, Repr

/-- Flask's per-request global `g`; `user = none` models the absence of
a request context or of the `user` attribute, so evaluating `g.user`
raises. -/
structure FlaskG where
  user : Option GUser
deriving DecidableEq, Repr

/-- Evaluation of the Python expression `g.user.id`: either a value or
an exception (carried as a message). -/
def resolveActorId (g : FlaskG) : Except String Nat :=
  match g.user with
  | none => .error "RuntimeError or AttributeError: g.user"
  | some u =>
    match u.idAttr with
    | none => .error "AttributeError: id"
    | some i => .ok i

/-- `User.get_user_id`:
`try: return g.user.id  except Exception: return None` —
every exception raised while resolving the actor is swallowed and `None`
is returned. -/
def get_user_id (g : FlaskG) : Option Nat :=
  match resolveActorId g with
  | .ok i => some i
  | .error _ => none

/-- Module-level state visible to the audit machinery: the process-wide
`_dont_audit` boolean (line 22 of the source) together with Flask's
ambient `g`. -/
structure AuditCtx where
  dont_audit : Bool
  g : FlaskG
deriving DecidableEq, Repr

/-- The caller-supplied columns of a `User` row; the audit columns are
filled in by the declared column defaults, not by the caller. -/
structure UserInput where
  id : Nat
  first_name : String
  last_name : String
  username : String
  password : Option String
  active : Option Bool
  email : String
deriving DecidableEq, Repr

/-- INSERT of a `User` row: the declared column defaults fire, so
`created_by_fk` and `changed_by_fk` are both set from
`default=self.get_user_id`.  `get_user_id` reads only `g`; no code in
the source file consults the `_dont_audit` flag. -/
def insertUserRow (ctx : AuditCtx) (inp : UserInput) : User :=
  { id := inp.id, first_name := inp.first_name, last_name := inp.last_name,
    username := inp.username, password := inp.password, active := inp.active,
    email := inp.email,
    created_by_fk := get_user_id ctx.g,
    changed_by_fk := get_user_id ctx.g }

/-- UPDATE of a `User` row with new caller-supplied column values:
neither `created_by_fk` nor `changed_by_fk` declares an `onupdate`
callable in the source, so an UPDATE leaves both audit columns exactly
as they were. -/
def updateUserRow (_ctx : AuditCtx) (row : User) (inp : UserInput) : User :=
  { row with
    first_name := inp.first_name
    last_name := inp.last_name
    username := inp.username
    password := inp.password
    active := inp.active
    email := inp.email }

end FAB

/-! ## Entity deletion with cascading association removal

Every foreign key of the four association tables is declared
`ondelete="CASCADE"` (and the relationships `passive_deletes=True`), so
deleting an entity row removes, in the same operation, every
association row referencing it. -/

namespace FAB

/-- DELETE of a `Role`: cascades over `ab_permission_view_role`,
`ab_user_role` and `ab_group_role`, whose `role_id` columns are all
`ondelete="CASCADE"`. -/
def deleteRole (s : Store) (rid : Nat) : Store :=
  { s with
    roles := s.roles.filter (fun r => r.id != rid)
    assoc_permissionview_role :=
      s.assoc_permissionview_role.filter (fun a => a.role_id != rid)
    assoc_user_role := s.assoc_user_role.filter (fun a => a.role_id != rid)
    assoc_group_role := s.assoc_group_role.filter (fun a => a.role_id != rid) }

/-- DELETE of a `PermissionView`: cascades over
`ab_permission_view_role` (`permission_view_id` is
`ondelete="CASCADE"`). -/
def deletePermissionView (s : Store) (pvid : Nat) : Store :=
  { s with
    permission_views := s.permission_views.filter (fun pv => pv.id != pvid)
    assoc_permissionview_role :=
      s.assoc_permissionview_role.filter (fun a => a.permission_view_id != pvid) }

/-- DELETE of a `User`: cascades over `ab_user_role` and
`ab_user_group`, whose `user_id` columns are `ondelete="CASCADE"`. -/
def deleteUser (s : Store) (uid : Nat) : Store :=
  { s with
    users := s.users.filter (fun u => u.id != uid)
    assoc_user_role := s.assoc_user_role.filter (fun a => a.user_id != uid)
    assoc_user_group := s.assoc_user_group.filter (fun a => a.user_id != uid) }

/-- DELETE of a `Group`: cascades over `ab_user_group` and
`ab_group_role`, whose `group_id` columns are `ondelete="CASCADE"`. -/
def deleteGroup (s : Store) (gid : Nat) : Store :=
  { s with
    groups := s.groups.filter (fun gr => gr.id != gid)
    assoc_user_group := s.assoc_user_group.filter (fun a => a.group_id != gid)
    assoc_group_role := s.assoc_group_role.filter (fun a => a.group_id != gid) }

end FAB

/-! ## Uniqueness constraints

Each table carries declared uniqueness constraints (primary key,
`unique=True` columns, `UniqueConstraint` pairs).  The store enforces
them: an INSERT or UPDATE that would duplicate a constrained value
fails with `Conflict` and leaves the state unchanged. -/

namespace FAB

/-- Storage-layer error surfaced to callers: a uniqueness-constraint
violation. -/
inductive DbError where
  | conflict
deriving DecidableEq, Repr

/-- `dup a b = true` when rows `a` and `b` collide on some declared
uniqueness constraint of their table.  INSERT of `row` fails with
`Conflict` when an existing row collides with it; otherwise the row is
appended. -/
def insertRow {α : Type} (dup : α → α → Bool) (table : List α) (row : α) :
    Except DbError (List α) :=
  if table.any (fun r => dup r row) then .error .conflict
  else .ok (table ++ [row])

/-- UPDATE of the row with surrogate id `tid` by `f`: fails with
`Conflict` when the updated row would collide with a different existing
row on some declared uniqueness constraint; otherwise the row is
replaced in place.  A lookup miss updates nothing. -/
def updateRow {α : Type} (idOf : α → Nat) (dup : α → α → Bool)
    (table : List α) (tid : Nat) (f : α → α) : Except DbError (List α) :=
  match table.find? (fun r => idOf r == tid) with
  | none => .ok table
  | some r =>
    if table.any (fun q => idOf q != tid && dup q (f r)) then .error .conflict
    else .ok (table.map (fun q => if idOf q == tid then f q else q))

/-- Collision on `ab_permission`: primary key or unique `name`. -/
def permissionDup (a b : Permission) : Bool :=
  a.id == b.id || a.name == b.name

/-- Collision on `ab_view_menu`: primary key or unique `name`. -/
def viewMenuDup (a b : ViewMenu) : Bool :=
  a.id == b.id || a.name == b.name

/-- Collision on `ab_role`: primary key or unique `name`. -/
def roleDup (a b : Role) : Bool :=
  a.id == b.id || a.name == b.name

/-- Collision on `ab_group`: primary key or unique `name`. -/
def groupDup (a b : Group) : Bool :=
  a.id == b.id || a.name == b.name

/-- Collision on `ab_user`: primary key, unique `username`, or unique
`email`. -/
def userDup (a b : User) : Bool :=
  a.id == b.id || a.username == b.username || a.email == b.email

/-- Collision on `ab_permission_view`: primary key or the
`UniqueConstraint("permission_id", "view_menu_id")` pair. -/
def permissionViewDup (a b : PermissionView) : Bool :=
  a.id == b.id ||
    (a.permission_id == b.permission_id && a.view_menu_id == b.view_menu_id)

/-- Collision on `ab_permission_view_role`: primary key or the
`UniqueConstraint("permission_view_id", "role_id")` pair. -/
def assocPermissionViewRoleDup (a b : AssocPermissionViewRole) : Bool :=
  a.id == b.id ||
    (a.permission_view_id == b.permission_view_id && a.role_id == b.role_id)

/-- Collision on `ab_user_role`: primary key or the
`UniqueConstraint("user_id", "role_id")` pair. -/
def assocUserRoleDup (a b : AssocUserRole) : Bool :=
  a.id == b.id || (a.user_id == b.user_id && a.role_id == b.role_id)

/-- Collision on `ab_user_group`: primary key or the
`UniqueConstraint("user_id", "group_id")` pair. -/
def assocUserGroupDup (a b : AssocUserGroup) : Bool :=
  a.id == b.id || (a.user_id == b.user_id && a.group_id == b.group_id)

/-- Collision on `ab_group_role`: primary key or the
`UniqueConstraint("group_id", "role_id")` pair. -/
def assocGroupRoleDup (a b : AssocGroupRole) : Bool :=
  a.id == b.id || (a.group_id == b.group_id && a.role_id == b.role_id)

/-- A table satisfies its uniqueness constraints when no two distinct
rows collide. -/
def TableOk {α : Type} (dup : α → α → Bool) (table : List α) : Prop :=
  table.Pairwise (fun a b => dup a b = false)

/-- The uniqueness constraints of one table are enforced: a
constraint-respecting INSERT or UPDATE preserves `TableOk`, and an
INSERT or UPDATE that would collide with an existing row fails with
`Conflict` (and, the result being an error, leaves the table as it
was). -/
def ConstraintEnforced {α : Type} (idOf : α → Nat) (dup : α → α → Bool)
    (table : List α) : Prop :=
  (∀ row t', insertRow dup table row = .ok t' → TableOk dup t') ∧
  (∀ row, (∃ q ∈ table, dup q row = true) →
    insertRow dup table row = .error .conflict) ∧
  (∀ tid f t', updateRow idOf dup table tid f = .ok t' → TableOk dup t') ∧
  (∀ tid f r, table.find? (fun q => idOf q == tid) = some r →
    (∃ q ∈ table, idOf q ≠ tid ∧ dup q (f r) = true) →
    updateRow idOf dup table tid f = .error .conflict)

/-- All declared uniqueness constraints of the store hold. -/
def Store.wf (s : Store) : Prop :=
  TableOk permissionDup s.permissions ∧
  TableOk viewMenuDup s.view_menus ∧
  TableOk roleDup s.roles ∧
  TableOk groupDup s.groups ∧
  TableOk userDup s.users ∧
  TableOk permissionViewDup s.permission_views ∧
  TableOk assocPermissionViewRoleDup s.assoc_permissionview_role ∧
  TableOk assocUserRoleDup s.assoc_user_role ∧
  TableOk assocUserGroupDup s.assoc_user_group ∧
  TableOk assocGroupRoleDup s.assoc_group_role

end FAB

/-! ## Concrete fixtures -/

namespace FAB

/-- A store exercising the group-transitive grant path: user 1 has no
direct role, belongs to group 10, which holds role 20, which is granted
permission-view 7 = ("can_edit", "UserView"). -/
def exStore : Store :=
  { permissions := [⟨1, "can_edit"⟩]
    view_menus := [⟨1, "UserView"⟩]
    permission_views := [⟨7, 1, 1⟩]
    roles := [⟨20, "Admin"⟩]
    users := [{ id := 1, first_name := "Bob", last_name := "B",
                username := "bob", password := none, active := some true,
                email := "bob", created_by_fk := none, changed_by_fk := none }]
    groups := [⟨10, "Editors", none, none⟩]
    assoc_permissionview_role := [⟨1, 7, 20⟩]
    assoc_user_role := []
    assoc_user_group := [⟨1, 1, 10⟩]
    assoc_group_role := [⟨1, 10, 20⟩] }

/-- A request context in which actor 1 is authenticated. -/
def ctxActor1 : AuditCtx :=
  { dont_audit := false, g := { user := some { idAttr := some 1 } } }

/-- A request context in which actor 2 is authenticated. -/
def ctxActor2 : AuditCtx :=
  { dont_audit := false, g := { user := some { idAttr := some 2 } } }

/-- A context with the `_dont_audit` flag raised while actor 7 is
authenticated. -/
def ctxFlagged : AuditCtx :=
  { dont_audit := true, g := { user := some { idAttr := some 7 } } }

/-- Sample caller-supplied user columns. -/
def sampleInput : UserInput :=
  { id := 3, first_name := "Alice", last_name := "Doe", username := "alice",
    password := some "hash", active := some true, email := "alice" }

/-- The same user with an edited first name, as supplied to an UPDATE. -/
def sampleInput2 : UserInput :=
  { id := 3, first_name := "Alicia", last_name := "Doe", username := "alice",
    password := some "hash", active := some true, email := "alice" }

end FAB

/-! ## Theorems -/

namespace FAB

/-- For the single-character pattern `"_"`, Python replace is the map
sending each underscore to a space. -/
theorem pyReplace_underscore (l : List Char) :
    pyReplace ['_'] [' '] l = l.map (fun c => if c = '_' then ' ' else c) := by
  induction l with
  | nil => simp [pyReplace]
  | cons c rest ih =>
    rw [pyReplace]
    by_cases h : c = '_'
    · subst h
      simp [List.isPrefixOf, ih]
    · have hc : ¬((['_'] : List Char) ≠ [] ∧
          (['_'] : List Char).isPrefixOf (c :: rest)) := by
        rintro ⟨-, hpre⟩
        simp [List.isPrefixOf] at hpre
        first
        | exact h hpre
        | exact h hpre.symm
      rw [if_neg hc, ih]
      simp [h]

/-- C9: for every PermissionView whose Permission has name `p` and
whose ViewMenu has name `v`, its textual representation equals `p` with
every underscore character replaced by a space, followed by the literal
`" on "`, followed by `v`. -/
theorem permission_view_repr_spec (p : Permission) (v : ViewMenu) :
    permissionViewRepr p v =
      p.name.toList.map (fun c => if c = '_' then ' ' else c) ++
        (" on ".toList ++ v.name.toList) := by
  unfold permissionViewRepr
  rw [pyReplace_underscore, List.append_assoc]

/-- C8: two `ViewMenu` instances are equal exactly when their names are
equal; the surrogate identifier plays no part in the comparison. -/
theorem viewmenu_equality_by_name (v1 v2 : ViewMenu) :
    (viewMenuEq v1 v2 = true ↔ v1.name = v2.name) ∧
    (v1.name = v2.name → v1.id ≠ v2.id → viewMenuEq v1 v2 = true) ∧
    (v1.id = v2.id → v1.name ≠ v2.name → viewMenuEq v1 v2 = false) := by
  refine ⟨by simp [viewMenuEq], fun h _ => by simp [viewMenuEq, h],
    fun _ h => by simp [viewMenuEq, h]⟩

/-- Witness for C8: two instances with distinct identifiers but the
same name compare equal. -/
theorem viewmenu_equality_by_name_witness :
    viewMenuEq ⟨1, "UserView"⟩ ⟨2, "UserView"⟩ = true :=
  (viewmenu_equality_by_name ⟨1, "UserView"⟩ ⟨2, "UserView"⟩).2.1 rfl
    (by decide)

/-- C10: `is_active` returns the stored `active` column verbatim; when
the nullable column was never set the result is the null value, neither
`true` nor `false`. -/
theorem is_active_verbatim (u : User) :
    u.is_active = u.active ∧
    (u.active = none → u.is_active ≠ some true ∧ u.is_active ≠ some false) ∧
    (∀ b, u.active = some b → u.is_active = some b) := by
  refine ⟨rfl, fun h => by simp [User.is_active, h], fun b h => by
    simp [User.is_active, h]⟩

/-- Witness for C10: a user whose `active` flag was never set yields
the unset state from `is_active`. -/
theorem is_active_verbatim_witness :
    ({ id := 9, first_name := "N", last_name := "N", username := "n",
       password := none, active := none, email := "n",
       created_by_fk := none, changed_by_fk := none : User }).is_active
        ≠ some true :=
  ((is_active_verbatim _).2.1 rfl).1

/-- C5: resolving the current actor never surfaces an error: whenever
evaluating `g.user.id` raises, `get_user_id` returns `none`, and when
it yields a value, `get_user_id` returns that value. -/
theorem get_user_id_never_raises (g : FlaskG) :
    (∀ e, resolveActorId g = .error e → get_user_id g = none) ∧
    (∀ i, resolveActorId g = .ok i → get_user_id g = some i) := by
  constructor
  · intro e he
    unfold get_user_id
    rw [he]
  · intro i hi
    unfold get_user_id
    rw [hi]

/-- Witness for C5: with no request context the actor resolves to
`none`; with actor 5 authenticated it resolves to `some 5`. -/
theorem get_user_id_never_raises_witness :
    get_user_id { user := none } = none ∧
      get_user_id { user := some { idAttr := some 5 } } = some 5 :=
  ⟨(get_user_id_never_raises { user := none }).1
      "RuntimeError or AttributeError: g.user" rfl,
    (get_user_id_never_raises { user := some { idAttr := some 5 } }).2 5 rfl⟩

/-- C3 (code bug): `created_by_fk` is populated from the current actor
at INSERT, but `changed_by_fk` declares no `onupdate`, so an UPDATE
performed while actor 2 is current leaves it at its insert-time value
`some 1` instead of `some 2`. -/
theorem changed_by_not_set_on_update :
    (insertUserRow ctxActor1 sampleInput).created_by_fk = some 1 ∧
    (insertUserRow ctxActor1 sampleInput).changed_by_fk = some 1 ∧
    get_user_id ctxActor2.g = some 2 ∧
    (updateUserRow ctxActor2 (insertUserRow ctxActor1 sampleInput)
        sampleInput2).changed_by_fk = some 1 :=
  ⟨rfl, rfl, rfl, rfl⟩

/-- Counterexample for C4: with `_dont_audit = true` and actor 7
available, an INSERT still populates `created_by_fk` (the claim says it
would be left null). -/
theorem dont_audit_counterexample :
    ctxFlagged.dont_audit = true ∧
    get_user_id ctxFlagged.g = some 7 ∧
    (insertUserRow ctxFlagged sampleInput).created_by_fk = some 7 ∧
    ¬ (insertUserRow ctxFlagged sampleInput).created_by_fk = none ∧
    ¬ (insertUserRow ctxFlagged sampleInput).changed_by_fk = none := by
  refine ⟨rfl, rfl, rfl, by simp [insertUserRow, ctxFlagged, get_user_id,
    resolveActorId], by simp [insertUserRow, ctxFlagged, get_user_id,
    resolveActorId]⟩

/-- C4 as amended: the `_dont_audit` boolean exists but is never
consulted; INSERT and UPDATE behave identically for either value of the
flag, with the audit columns populated from the ambient actor on INSERT
and left untouched on UPDATE. -/
theorem dont_audit_has_no_effect (b₁ b₂ : Bool) (g : FlaskG) (row : User)
    (inp inp₂ : UserInput) :
    insertUserRow { dont_audit := b₁, g := g } inp =
      insertUserRow { dont_audit := b₂, g := g } inp ∧
    updateUserRow { dont_audit := b₁, g := g } row inp₂ =
      updateUserRow { dont_audit := b₂, g := g } row inp₂ ∧
    (insertUserRow { dont_audit := b₁, g := g } inp).created_by_fk =
      get_user_id g ∧
    (insertUserRow { dont_audit := b₁, g := g } inp).changed_by_fk =
      get_user_id g ∧
    (updateUserRow { dont_audit := b₁, g := g } row inp₂).created_by_fk =
      row.created_by_fk ∧
    (updateUserRow { dont_audit := b₁, g := g } row inp₂).changed_by_fk =
      row.changed_by_fk :=
  ⟨rfl, rfl, rfl, rfl, rfl, rfl⟩

/-- C1: membership in the effective permission set is exactly
reachability through a directly assigned Role or through a Role of one
of the user's Groups, with duplicates collapsed (`Nodup`); a user with
no direct Role receives exactly the PermissionViews of its Groups'
Roles. -/
theorem effective_permissions_union (s : Store) (uid pvid : Nat) :
    (pvid ∈ effectivePermissionViews s uid ↔
      (∃ rid ∈ userRoleIds s uid, pvid ∈ rolePermissionViewIds s rid) ∨
      ∃ gid ∈ userGroupIds s uid, ∃ rid ∈ groupRoleIds s gid,
        pvid ∈ rolePermissionViewIds s rid) ∧
    (effectivePermissionViews s uid).Nodup ∧
    (userRoleIds s uid = [] →
      (pvid ∈ effectivePermissionViews s uid ↔
        ∃ gid ∈ userGroupIds s uid, ∃ rid ∈ groupRoleIds s gid,
          pvid ∈ rolePermissionViewIds s rid)) := by
  refine ⟨?_, List.nodup_dedup _, fun hnone => ?_⟩
  · unfold effectivePermissionViews
    rw [List.mem_dedup, List.mem_append]
    simp [List.mem_flatMap]
  · unfold effectivePermissionViews
    rw [hnone, List.mem_dedup]
    simp [List.mem_flatMap]

/-- Witness for C1: user 1 of the fixture store has no direct Role yet
its effective set contains permission-view 7, granted to role 20 of its
group 10. -/
theorem effective_permissions_union_witness :
    7 ∈ effectivePermissionViews exStore 1 :=
  ((effective_permissions_union exStore 1 7).2.2 (by decide)).mpr
    ⟨10, by decide, 20, by decide, by decide⟩

/-- C2: `has_permission` is a boolean membership test of the matching
PermissionView in the effective set, and returns `false` — not an
error — whenever no Permission or no ViewMenu with the given name
exists. -/
theorem has_permission_membership (s : Store) (uid : Nat)
    (pname vname : String) :
    ((findPermissionByName s pname = none ∨
        findViewMenuByName s vname = none) →
      has_permission s uid pname vname = false) ∧
    (findPermissionByName s pname = none ↔
      ∀ p ∈ s.permissions, p.name ≠ pname) ∧
    (findViewMenuByName s vname = none ↔
      ∀ v ∈ s.view_menus, v.name ≠ vname) ∧
    (∀ p v, findPermissionByName s pname = some p →
      findViewMenuByName s vname = some v →
      (has_permission s uid pname vname = true ↔
        ∃ pv, findPermissionViewByIds s p.id v.id = some pv ∧
          pv.id ∈ effectivePermissionViews s uid)) := by
  refine ⟨?_, ?_, ?_, ?_⟩
  · rintro (h | h) <;> unfold has_permission <;> rw [h]
    all_goals
      first
      | rfl
      | (cases findPermissionByName s pname <;> rfl)
  · unfold findPermissionByName
    rw [List.find?_eq_none]
    simp
  · unfold findViewMenuByName
    rw [List.find?_eq_none]
    simp
  · intro p v hp hv
    unfold has_permission
    rw [hp, hv]
    cases hpv : findPermissionViewByIds s p.id v.id with
    | none => simp [hpv]
    | some pv => simp [hpv]

/-- Witness for C2: in the fixture store, membership through the group
path makes `has_permission` true, and a nonexistent permission name
yields `false`, not an error. -/
theorem has_permission_membership_witness :
    has_permission exStore 1 "can_nonexistent" "AnyView" = false ∧
      has_permission exStore 1 "can_edit" "UserView" = true :=
  ⟨(has_permission_membership exStore 1 "can_nonexistent" "AnyView").1
      (Or.inl (by decide)),
    ((has_permission_membership exStore 1 "can_edit" "UserView").2.2.2
        ⟨1, "can_edit"⟩ ⟨1, "UserView"⟩ (by decide) (by decide)).mpr
      ⟨⟨7, 1, 1⟩, by decide, by decide⟩⟩

/-- C6: deleting a Role, PermissionView, User, or Group removes, in the
same operation, every association row referencing it — afterwards no
join-association row references the deleted id — and deleting a Role
with N grants removes exactly its N `ab_permission_view_role` rows. -/
theorem delete_cascades_associations (s : Store) (rid pvid uid gid : Nat) :
    ((deleteRole s rid).roles.all (fun r => r.id != rid) = true ∧
      (deleteRole s rid).assoc_permissionview_role.all
        (fun a => a.role_id != rid) = true ∧
      (deleteRole s rid).assoc_user_role.all
        (fun a => a.role_id != rid) = true ∧
      (deleteRole s rid).assoc_group_role.all
        (fun a => a.role_id != rid) = true ∧
      (deleteRole s rid).assoc_permissionview_role.length +
        (s.assoc_permissionview_role.filter
          (fun a => a.role_id == rid)).length =
        s.assoc_permissionview_role.length) ∧
    ((deletePermissionView s pvid).permission_views.all
        (fun pv => pv.id != pvid) = true ∧
      (deletePermissionView s pvid).assoc_permissionview_role.all
        (fun a => a.permission_view_id != pvid) = true) ∧
    ((deleteUser s uid).users.all (fun u => u.id != uid) = true ∧
      (deleteUser s uid).assoc_user_role.all
        (fun a => a.user_id != uid) = true ∧
      (deleteUser s uid).assoc_user_group.all
        (fun a => a.user_id != uid) = true) ∧
    ((deleteGroup s gid).groups.all (fun g => g.id != gid) = true ∧
      (deleteGroup s gid).assoc_user_group.all
        (fun a => a.group_id != gid) = true ∧
      (deleteGroup s gid).assoc_group_role.all
        (fun a => a.group_id != gid) = true) := by
  have hlen := List.length_eq_length_filter_add
    (l := s.assoc_permissionview_role) (fun a => a.role_id == rid)
  refine ⟨⟨?_, ?_, ?_, ?_, ?_⟩, ⟨?_, ?_⟩, ⟨?_, ?_, ?_⟩, ⟨?_, ?_, ?_⟩⟩ <;>
    simp only [deleteRole, deletePermissionView, deleteUser, deleteGroup] <;>
    first
    | (rw [List.all_eq_true]
       intro x hx
       exact (List.mem_filter.mp hx).2)
    | (simp only [bne] at *
       omega)

/-- Symmetry of `==` under a lawful `BEq`. -/
theorem beqSymm {γ : Type} [BEq γ] [LawfulBEq γ] (a b : γ) :
    (a == b) = (b == a) := by
  rw [Bool.eq_iff_iff, beq_iff_eq, beq_iff_eq]
  exact eq_comm

/-- A non-colliding INSERT preserves the table's constraints. -/
theorem insertRow_ok_tableOk {α : Type} (dup : α → α → Bool)
    (table : List α) (row : α) (t' : List α) (h : TableOk dup table)
    (hok : insertRow dup table row = .ok t') : TableOk dup t' := by
  unfold insertRow at hok
  by_cases hc : table.any (fun r => dup r row) = true
  · rw [if_pos hc] at hok
    exact absurd hok (by simp)
  · rw [if_neg hc] at hok
    cases hok
    unfold TableOk at h ⊢
    refine List.pairwise_append.mpr ⟨h, by simp, ?_⟩
    intro a ha b hb
    have hb' : b = row := by simpa using hb
    subst hb'
    have hna := List.any_eq_false.mp (Bool.eq_false_iff.mpr hc) a ha
    exact Bool.eq_false_iff.mpr hna

/-- An INSERT colliding with an existing row fails with `Conflict`. -/
theorem insertRow_conflict {α : Type} (dup : α → α → Bool)
    (table : List α) (row : α) (hdup : ∃ q ∈ table, dup q row = true) :
    insertRow dup table row = .error .conflict := by
  unfold insertRow
  rw [if_pos (List.any_eq_true.mpr hdup)]

/-- Core lemma for UPDATE: replacing the row found at id `tid` by a
value that collides with no other row preserves the table's
constraints. -/
theorem tableOk_map_update {α : Type} (idOf : α → Nat) (dup : α → α → Bool)
    (hsymm : ∀ a b, dup a b = dup b a)
    (hid : ∀ a b, idOf a = idOf b → dup a b = true)
    (tid : Nat) (f : α → α) (table : List α) :
    ∀ r, TableOk dup table →
      table.find? (fun q => idOf q == tid) = some r →
      (∀ q ∈ table, idOf q ≠ tid → dup q (f r) = false) →
      TableOk dup (table.map fun q => if idOf q == tid then f q else q) := by
  induction table with
  | nil =>
    intro r _ hfind _
    simp at hfind
  | cons a rest ih =>
    intro r h hfind hchk
    unfold TableOk at h ⊢
    rw [List.pairwise_cons] at h
    obtain ⟨hhead, htail⟩ := h
    by_cases ha : idOf a = tid
    · have hfa : (fun q => idOf q == tid) a = true := by simp [ha]
      have hfc : List.find? (fun q => idOf q == tid) (a :: rest) = some a :=
        List.find?_cons_of_pos rest hfa
      rw [hfc] at hfind
      injection hfind with hra
      subst hra
      have hrest_ne : ∀ q ∈ rest, idOf q ≠ tid := by
        intro q hq hqe
        have hd := hid a q (by rw [ha, hqe])
        rw [hhead q hq] at hd
        exact absurd hd (by decide)
      have hmap : rest.map (fun q => if idOf q == tid then f q else q)
          = rest := by
        have heach : ∀ q ∈ rest,
            (if idOf q == tid then f q else q) = q := by
          intro q hq
          rw [if_neg]
          simp [hrest_ne q hq]
        calc rest.map (fun q => if idOf q == tid then f q else q)
            = rest.map id := List.map_congr_left heach
          _ = rest := List.map_id rest
      rw [List.map_cons, hmap]
      have hfa' : (if idOf a == tid then f a else a) = f a := by
        rw [if_pos]
        simp [ha]
      rw [hfa', List.pairwise_cons]
      refine ⟨?_, htail⟩
      intro q hq
      rw [hsymm]
      exact hchk q (List.mem_cons_of_mem a hq) (hrest_ne q hq)
    · have hfa : ¬((fun q => idOf q == tid) a = true) := by simp [ha]
      have hfc : List.find? (fun q => idOf q == tid) (a :: rest) =
          List.find? (fun q => idOf q == tid) rest :=
        List.find?_cons_of_neg rest hfa
      rw [hfc] at hfind
      have hga : (if idOf a == tid then f a else a) = a := by
        rw [if_neg]
        simp [ha]
      rw [List.map_cons, hga, List.pairwise_cons]
      have hnd : (rest.map idOf).Nodup := by
        refine List.Pairwise.map idOf ?_ htail
        intro x y hxy hEq
        rw [hid x y hEq] at hxy
        exact absurd hxy (by decide)
      have hr_mem : r ∈ rest := List.mem_of_find?_eq_some hfind
      have hr_id : idOf r = tid := by
        have := List.find?_some hfind
        simpa using this
      refine ⟨?_, ?_⟩
      · intro x hx
        obtain ⟨q, hq, hgq⟩ := List.mem_map.mp hx
        by_cases hq2 : idOf q = tid
        · have hqr : q = r :=
            List.inj_on_of_nodup_map hnd hq hr_mem (by rw [hq2, hr_id])
          have hx' : x = f r := by
            rw [← hgq, if_pos (by simp [hq2]), hqr]
          rw [hx']
          exact hchk a (List.mem_cons_self a rest) ha
        · have hx' : x = q := by
            rw [← hgq, if_neg (by simp [hq2])]
          rw [hx']
          exact hhead q hq
      · exact ih r htail hfind
          (fun q hq hne => hchk q (List.mem_cons_of_mem a hq) hne)

/-- A non-colliding UPDATE preserves the table's constraints. -/
theorem updateRow_ok_tableOk {α : Type} (idOf : α → Nat)
    (dup : α → α → Bool) (hsymm : ∀ a b, dup a b = dup b a)
    (hid : ∀ a b, idOf a = idOf b → dup a b = true)
    (table : List α) (tid : Nat) (f : α → α) (t' : List α)
    (h : TableOk dup table)
    (hok : updateRow idOf dup table tid f = .ok t') : TableOk dup t' := by
  unfold updateRow at hok
  cases hfind : table.find? (fun q => idOf q == tid) with
  | none =>
    rw [hfind] at hok
    cases hok
    exact h
  | some r =>
    rw [hfind] at hok
    have hok' : (if (table.any fun q => idOf q != tid && dup q (f r)) = true
          then (Except.error DbError.conflict : Except DbError (List α))
          else Except.ok (table.map fun q => if idOf q == tid then f q else q))
        = Except.ok t' := hok
    by_cases hc : (table.any fun q => idOf q != tid && dup q (f r)) = true
    · rw [if_pos hc] at hok'
      exact absurd hok' (by simp)
    · rw [if_neg hc] at hok'
      cases hok'
      refine tableOk_map_update idOf dup hsymm hid tid f table r h hfind ?_
      intro q hq hqne
      have hc' := List.any_eq_false.mp (Bool.eq_false_iff.mpr hc) q hq
      simp only [Bool.and_eq_true, bne_iff_ne, ne_eq, not_and] at hc'
      exact Bool.eq_false_iff.mpr (hc' hqne)

/-- An UPDATE colliding with a different existing row fails with
`Conflict`. -/
theorem updateRow_conflict {α : Type} (idOf : α → Nat)
    (dup : α → α → Bool) (table : List α) (tid : Nat) (f : α → α) (r : α)
    (hfind : table.find? (fun q => idOf q == tid) = some r)
    (hdup : ∃ q ∈ table, idOf q ≠ tid ∧ dup q (f r) = true) :
    updateRow idOf dup table tid f = .error .conflict := by
  unfold updateRow
  rw [hfind]
  show (if (table.any fun q => idOf q != tid && dup q (f r)) = true
      then (Except.error DbError.conflict : Except DbError (List α))
      else Except.ok (table.map fun q => if idOf q == tid then f q else q))
    = Except.error DbError.conflict
  rw [if_pos]
  apply List.any_eq_true.mpr
  obtain ⟨q, hq, hne, hd⟩ := hdup
  exact ⟨q, hq, by simp [hne, hd]⟩

/-- Any table currently satisfying its constraints enforces them on
INSERT and UPDATE. -/
theorem constraintEnforced_of_tableOk {α : Type} (idOf : α → Nat)
    (dup : α → α → Bool) (hsymm : ∀ a b, dup a b = dup b a)
    (hid : ∀ a b, idOf a = idOf b → dup a b = true)
    (table : List α) (h : TableOk dup table) :
    ConstraintEnforced idOf dup table :=
  ⟨fun row t' => insertRow_ok_tableOk dup table row t' h,
    fun row hdup => insertRow_conflict dup table row hdup,
    fun tid f t' => updateRow_ok_tableOk idOf dup hsymm hid table tid f t' h,
    fun tid f r hfind hdup =>
      updateRow_conflict idOf dup table tid f r hfind hdup⟩

/-- `permissionDup` is symmetric. -/
theorem permissionDup_comm (a b : Permission) :
    permissionDup a b = permissionDup b a := by
  simp only [permissionDup, beqSymm a.id b.id, beqSymm a.name b.name]

/-- Rows of `ab_permission` sharing a primary key collide. -/
theorem permissionDup_id (a b : Permission) (h : a.id = b.id) :
    permissionDup a b = true := by
  simp [permissionDup, h]

/-- `viewMenuDup` is symmetric. -/
theorem viewMenuDup_comm (a b : ViewMenu) :
    viewMenuDup a b = viewMenuDup b a := by
  simp only [viewMenuDup, beqSymm a.id b.id, beqSymm a.name b.name]

/-- Rows of `ab_view_menu` sharing a primary key collide. -/
theorem viewMenuDup_id (a b : ViewMenu) (h : a.id = b.id) :
    viewMenuDup a b = true := by
  simp [viewMenuDup, h]

/-- `roleDup` is symmetric. -/
theorem roleDup_comm (a b : Role) : roleDup a b = roleDup b a := by
  simp only [roleDup, beqSymm a.id b.id, beqSymm a.name b.name]

/-- Rows of `ab_role` sharing a primary key collide. -/
theorem roleDup_id (a b : Role) (h : a.id = b.id) : roleDup a b = true := by
  simp [roleDup, h]

/-- `groupDup` is symmetric. -/
theorem groupDup_comm (a b : Group) : groupDup a b = groupDup b a := by
  simp only [groupDup, beqSymm a.id b.id, beqSymm a.name b.name]

/-- Rows of `ab_group` sharing a primary key collide. -/
theorem groupDup_id (a b : Group) (h : a.id = b.id) :
    groupDup a b = true := by
  simp [groupDup, h]

/-- `userDup` is symmetric. -/
theorem userDup_comm (a b : User) : userDup a b = userDup b a := by
  simp only [userDup, beqSymm a.id b.id, beqSymm a.username b.username,
    beqSymm a.email b.email]

/-- Rows of `ab_user` sharing a primary key collide. -/
theorem userDup_id (a b : User) (h : a.id = b.id) : userDup a b = true := by
  simp [userDup, h]

/-- `permissionViewDup` is symmetric. -/
theorem permissionViewDup_comm (a b : PermissionView) :
    permissionViewDup a b = permissionViewDup b a := by
  simp only [permissionViewDup, beqSymm a.id b.id,
    beqSymm a.permission_id b.permission_id,
    beqSymm a.view_menu_id b.view_menu_id]

/-- Rows of `ab_permission_view` sharing a primary key collide. -/
theorem permissionViewDup_id (a b : PermissionView) (h : a.id = b.id) :
    permissionViewDup a b = true := by
  simp [permissionViewDup, h]

/-- `assocPermissionViewRoleDup` is symmetric. -/
theorem assocPermissionViewRoleDup_comm (a b : AssocPermissionViewRole) :
    assocPermissionViewRoleDup a b = assocPermissionViewRoleDup b a := by
  simp only [assocPermissionViewRoleDup, beqSymm a.id b.id,
    beqSymm a.permission_view_id b.permission_view_id,
    beqSymm a.role_id b.role_id]

/-- Rows of `ab_permission_view_role` sharing a primary key collide. -/
theorem assocPermissionViewRoleDup_id (a b : AssocPermissionViewRole)
    (h : a.id = b.id) : assocPermissionViewRoleDup a b = true := by
  simp [assocPermissionViewRoleDup, h]

/-- `assocUserRoleDup` is symmetric. -/
theorem assocUserRoleDup_comm (a b : AssocUserRole) :
    assocUserRoleDup a b = assocUserRoleDup b a := by
  simp only [assocUserRoleDup, beqSymm a.id b.id,
    beqSymm a.user_id b.user_id, beqSymm a.role_id b.role_id]

/-- Rows of `ab_user_role` sharing a primary key collide. -/
theorem assocUserRoleDup_id (a b : AssocUserRole) (h : a.id = b.id) :
    assocUserRoleDup a b = true := by
  simp [assocUserRoleDup, h]

/-- `assocUserGroupDup` is symmetric. -/
theorem assocUserGroupDup_comm (a b : AssocUserGroup) :
    assocUserGroupDup a b = assocUserGroupDup b a := by
  simp only [assocUserGroupDup, beqSymm a.id b.id,
    beqSymm a.user_id b.user_id, beqSymm a.group_id b.group_id]

/-- Rows of `ab_user_group` sharing a primary key collide. -/
theorem assocUserGroupDup_id (a b : AssocUserGroup) (h : a.id = b.id) :
    assocUserGroupDup a b = true := by
  simp [assocUserGroupDup, h]

/-- `assocGroupRoleDup` is symmetric. -/
theorem assocGroupRoleDup_comm (a b : AssocGroupRole) :
    assocGroupRoleDup a b = assocGroupRoleDup b a := by
  simp only [assocGroupRoleDup, beqSymm a.id b.id,
    beqSymm a.group_id b.group_id, beqSymm a.role_id b.role_id]

/-- Rows of `ab_group_role` sharing a primary key collide. -/
theorem assocGroupRoleDup_id (a b : AssocGroupRole) (h : a.id = b.id) :
    assocGroupRoleDup a b = true := by
  simp [assocGroupRoleDup, h]

/-- C7: in every store satisfying the declared uniqueness constraints
(unique names, unique `username`/`email`, unique
(`permission_id`, `view_menu_id`) pair, unique association pairs), every
table enforces them: constraint-respecting INSERTs and UPDATEs preserve
them, and an INSERT or UPDATE that would collide fails with `Conflict`,
returning an error and no new state. -/
theorem uniqueness_constraints_enforced (s : Store) (hwf : s.wf) :
    ConstraintEnforced Permission.id permissionDup s.permissions ∧
    ConstraintEnforced ViewMenu.id viewMenuDup s.view_menus ∧
    ConstraintEnforced Role.id roleDup s.roles ∧
    ConstraintEnforced Group.id groupDup s.groups ∧
    ConstraintEnforced User.id userDup s.users ∧
    ConstraintEnforced PermissionView.id permissionViewDup
      s.permission_views ∧
    ConstraintEnforced AssocPermissionViewRole.id assocPermissionViewRoleDup
      s.assoc_permissionview_role ∧
    ConstraintEnforced AssocUserRole.id assocUserRoleDup s.assoc_user_role ∧
    ConstraintEnforced AssocUserGroup.id assocUserGroupDup
      s.assoc_user_group ∧
    ConstraintEnforced AssocGroupRole.id assocGroupRoleDup
      s.assoc_group_role := by
  obtain ⟨h1, h2, h3, h4, h5, h6, h7, h8, h9, h10⟩ := hwf
  exact ⟨constraintEnforced_of_tableOk _ _ permissionDup_comm
      permissionDup_id _ h1,
    constraintEnforced_of_tableOk _ _ viewMenuDup_comm viewMenuDup_id _ h2,
    constraintEnforced_of_tableOk _ _ roleDup_comm roleDup_id _ h3,
    constraintEnforced_of_tableOk _ _ groupDup_comm groupDup_id _ h4,
    constraintEnforced_of_tableOk _ _ userDup_comm userDup_id _ h5,
    constraintEnforced_of_tableOk _ _ permissionViewDup_comm
      permissionViewDup_id _ h6,
    constraintEnforced_of_tableOk _ _ assocPermissionViewRoleDup_comm
      assocPermissionViewRoleDup_id _ h7,
    constraintEnforced_of_tableOk _ _ assocUserRoleDup_comm
      assocUserRoleDup_id _ h8,
    constraintEnforced_of_tableOk _ _ assocUserGroupDup_comm
      assocUserGroupDup_id _ h9,
    constraintEnforced_of_tableOk _ _ assocGroupRoleDup_comm
      assocGroupRoleDup_id _ h10⟩

/-- Witness for C7: the fixture store satisfies the constraints, so its
`ab_permission` table enforces them. -/
theorem uniqueness_constraints_enforced_witness :
    ConstraintEnforced Permission.id permissionDup exStore.permissions :=
  (uniqueness_constraints_enforced exStore
    (by simp only [Store.wf, TableOk, exStore]; decide)).1

end FAB
